import Mathlib

/-!
Shallow embedding of the Next.js proxy route handlers of the alpha-research
dashboard (files `dashboard/app/api/wechat-article-proxy/route.ts`,
`dashboard/app/api/wechat-delete-proxy/route.ts`,
`dashboard/app/api/theme-search-proxy/route.ts`, the wechat create proxy and
the wechat generate proxy).

Each handler is a pure function of the request parameters and of the outcome
of the single outbound `fetch` call.  Backend bodies are modelled as parsed
JSON values; any rejection inside a handler's `try` block (connection error,
body-parse error, or a `TypeError` raised while inspecting the error body)
is the `failure` outcome, which reaches the handler's `catch` branch.
-/

/-- JSON values, as produced by `response.json()` / consumed by
`NextResponse.json`.  Objects keep their fields in order. -/
inductive Json where
  | null : Json
  | bool (b : Bool) : Json
  | num (n : Int) : Json
  | str (s : String) : Json
  | arr (elems : List Json) : Json
  | obj (fields : List (String × Json)) : Json

/-- Field access `x.key` on a JSON value: `none` models JavaScript
`undefined` (missing key, or access on a non-object). -/
def Json.get (j : Json) (key : String) : Option Json :=
  match j with
  | .obj fields => fields.lookup key
  | _ => none

/-- JavaScript truthiness of a JSON value (`if (v)`): `null`, `false`, `0`
and the empty string are falsy; objects and arrays are always truthy. -/
def jsTruthy : Json → Bool
  | .null => false
  | .bool b => b
  | .num n => n != 0
  | .str s => s != ""
  | .arr _ => true
  | .obj _ => true

/-- JavaScript `typeof v === "object"`: true for objects, arrays and
`null`; false for strings, numbers and booleans. -/
def jsTypeIsObject : Json → Bool
  | .null => true
  | .obj _ => true
  | .arr _ => true
  | _ => false

mutual

/-- JavaScript `String(v)` coercion, as used by template literals and by
`+=` with a string operand. -/
def jsToString : Json → String
  | .null => "null"
  | .bool b => if b then "true" else "false"
  | .num n => toString n
  | .str s => s
  | .arr elems => jsToStringElems elems
  | .obj _ => "[object Object]"

/-- Array-to-string coercion: elements joined by commas, with `null`
elements rendered empty (JavaScript `Array.prototype.toString`). -/
def jsToStringElems : List Json → String
  | [] => ""
  | [Json.null] => ""
  | [j] => jsToString j
  | Json.null :: j :: rest => "," ++ jsToStringElems (j :: rest)
  | j :: j₂ :: rest => jsToString j ++ "," ++ jsToStringElems (j₂ :: rest)

end

/-- JSON string escaping for the two characters exercised by
`JSON.stringify` on the payloads in this repository. -/
def escapeChar (c : Char) : String :=
  if c = '"' then "\\\"" else if c = '\\' then "\\\\" else String.singleton c

/-- Escape every character of a string for JSON serialization. -/
def escapeString (s : String) : String :=
  String.join (s.toList.map escapeChar)

mutual

/-- Serialization of a JSON value, modelling `JSON.stringify` (object
fields in insertion order, no whitespace). -/
def Json.serialize : Json → String
  | .null => "null"
  | .bool b => if b then "true" else "false"
  | .num n => toString n
  | .str s => "\"" ++ escapeString s ++ "\""
  | .arr elems => "[" ++ serializeElems elems ++ "]"
  | .obj fields => "\x7b" ++ serializeFields fields ++ "\x7d"

/-- Serialize array elements, comma separated. -/
def serializeElems : List Json → String
  | [] => ""
  | [j] => j.serialize
  | j :: j₂ :: rest => j.serialize ++ "," ++ serializeElems (j₂ :: rest)

/-- Serialize object fields, comma separated. -/
def serializeFields : List (String × Json) → String
  | [] => ""
  | [(k, v)] => "\"" ++ escapeString k ++ "\":" ++ v.serialize
  | (k, v) :: f :: rest =>
      "\"" ++ escapeString k ++ "\":" ++ v.serialize ++ "," ++ serializeFields (f :: rest)

end

/-- Does `cs` contain `pat` as a contiguous sublist?  Scans every suffix,
like `String.prototype.includes`. -/
def listContainsSub (pat : List Char) : List Char → Bool
  | [] => pat.isEmpty
  | c :: cs => pat.isPrefixOf (c :: cs) || listContainsSub pat cs

/-- JavaScript `s.includes(pat)` on strings. -/
def strIncludes (s pat : String) : Bool :=
  listContainsSub pat.toList s.toList

/-- Is `c` a word character (regex `\w`, i.e. `[A-Za-z0-9_]`)? -/
def isWordChar (c : Char) : Bool :=
  c.isAlphanum || c = '_'

/-- Try to match the regex `No module named '(\w+)'` at the very start of
`cs`: the literal prefix, then a nonempty maximal run of word characters,
then a closing quote.  Returns the captured group. -/
def matchNoModuleAt (cs : List Char) : Option String :=
  let pat := "No module named ".toList ++ [Char.ofNat 39]
  if pat.isPrefixOf cs then
    let rest := cs.drop pat.length
    let run := rest.takeWhile isWordChar
    let after := rest.dropWhile isWordChar
    if run ≠ [] ∧ after.head? = some (Char.ofNat 39) then
      some (String.mk run)
    else none
  else none

/-- Scan `cs` left to right for the first position where
`matchNoModuleAt` succeeds, as a regex engine advances its start index. -/
def scanNoModule : List Char → Option String
  | [] => none
  | c :: cs =>
    match matchNoModuleAt (c :: cs) with
    | some m => some m
    | none => scanNoModule cs

/-- JavaScript `s.match(/No module named '(\w+)'/)?.[1]`: the first
captured module name in `s`, if the pattern matches anywhere. -/
def matchNoModule (s : String) : Option String :=
  scanNoModule s.toList

/-- Template-literal interpolation of a possibly-undefined string:
JavaScript renders `undefined` as the text "undefined". -/
def undefinedOr : Option String → String
  | some s => s
  | none => "undefined"

/-- Body of a response sent back to the browser: a JSON payload
(`NextResponse.json`) or raw text (`new NextResponse(text)`). -/
inductive Body where
  | json (j : Json) : Body
  | text (s : String) : Body

/-- Response a handler returns to the browser.  `contentType` records a
`Content-Type` header set explicitly in the handler (NextResponse.json
carries its implicit application/json type, modelled by `Body.json`). -/
structure ProxyResponse where
  status : Nat
  body : Body
  contentType : Option String

/-- Outcome of the single outbound `fetch` in a handler's `try` block.
`failure errText` is any rejection the `catch` receives — connection
error, body-parse error, or a `TypeError` thrown later in the block —
with `errText` the `String(error)` rendering of the thrown value.
`success` means the fetch completed with the given status and its body
parsed. -/
inductive FetchOutcome (β : Type) where
  | failure (errText : String) : FetchOutcome β
  | success (status : Nat) (body : β) : FetchOutcome β

/-- What a route does with a request: answer immediately (no outbound
call), or issue one backend request (method, URL, optional serialized
JSON payload) and map its outcome through a continuation. -/
inductive RouteAction (β : Type) where
  | respond (r : ProxyResponse) : RouteAction β
  | callBackend (method : String) (url : String) (reqBody : Option String)
      (handle : FetchOutcome β → ProxyResponse) : RouteAction β

/-- JavaScript `v || dflt` on an environment variable or query parameter
(`null` when absent, and the empty string is falsy). -/
def jsOrElse (v : Option String) (dflt : String) : String :=
  match v with
  | some s => if s = "" then dflt else s
  | none => dflt

/-- `response.ok`: status in the inclusive range 200–299. -/
def statusOk (status : Nat) : Bool :=
  200 ≤ status && status ≤ 299

/-- Shared 400 response of the get-article and delete-article routes when
`filename` is missing (their `if (!filename)` branches are identical). -/
def missingFilenameResponse : ProxyResponse :=
  { status := 400
    body := .json (.obj [("error", .str "Filename parameter is required")])
    contentType := none }

/-- Continuation of `GET` in `wechat-article-proxy/route.ts` after its
fetch: relays backend HTML verbatim as text/html on 2xx, relays the
backend status with body "Article not found" otherwise, and answers 500
"Internal server error" (plain text) from its catch branch. -/
def wechatArticleOnFetch (o : FetchOutcome String) : ProxyResponse :=
  match o with
  | .failure _ => { status := 500, body := .text "Internal server error", contentType := none }
  | .success st html =>
    if !statusOk st then
      { status := st, body := .text "Article not found", contentType := none }
    else
      { status := 200, body := .text html, contentType := some "text/html" }

/-- `GET` of `wechat-article-proxy/route.ts` (fetch one article): requires
a truthy `filename` query parameter, else 400 without a backend call. -/
def wechatArticleGET (apiHost : Option String) (filename : Option String) :
    RouteAction String :=
  match filename with
  | none => .respond missingFilenameResponse
  | some fn =>
    if fn = "" then .respond missingFilenameResponse
    else
      .callBackend "GET"
        ("http://" ++ jsOrElse apiHost "localhost" ++ ":8001/api/research/wechat/" ++ fn)
        none wechatArticleOnFetch

/-- Continuation of the list-articles `GET` in
`wechat-article-proxy/route.ts`: relays the backend JSON on 2xx, a fixed
error body with the backend status otherwise, 500 on failure. -/
def wechatListOnFetch (o : FetchOutcome Json) : ProxyResponse :=
  match o with
  | .failure _ =>
    { status := 500, body := .json (.obj [("error", .str "Internal server error")]), contentType := none }
  | .success st data =>
    if !statusOk st then
      { status := st
        body := .json (.obj [("error", .str "Failed to fetch WeChat articles list")])
        contentType := none }
    else
      { status := 200, body := .json data, contentType := none }

/-- List-articles `GET` route: always one backend call. -/
def wechatListGET (apiHost : Option String) : RouteAction Json :=
  .callBackend "GET"
    ("http://" ++ jsOrElse apiHost "localhost" ++ ":8001/api/research/wechat/list")
    none wechatListOnFetch

/-- Continuation of `DELETE` in `wechat-delete-proxy/route.ts`. -/
def wechatDeleteOnFetch (o : FetchOutcome Json) : ProxyResponse :=
  match o with
  | .failure _ =>
    { status := 500, body := .json (.obj [("error", .str "Internal server error")]), contentType := none }
  | .success st data =>
    if !statusOk st then
      { status := st
        body := .json (.obj [("error", .str "Failed to delete article")])
        contentType := none }
    else
      { status := 200, body := .json data, contentType := none }

/-- `DELETE` of `wechat-delete-proxy/route.ts`: requires a truthy
`filename`, else 400 without a backend call. -/
def wechatDeleteDELETE (apiHost : Option String) (filename : Option String) :
    RouteAction Json :=
  match filename with
  | none => .respond missingFilenameResponse
  | some fn =>
    if fn = "" then .respond missingFilenameResponse
    else
      .callBackend "DELETE"
        ("http://" ++ jsOrElse apiHost "localhost" ++ ":8001/api/research/wechat/" ++ fn)
        none wechatDeleteOnFetch

/-- Continuation of the market-quotes `GET` in
`wechat-delete-proxy/route.ts`. -/
def marketQuotesOnFetch (o : FetchOutcome Json) : ProxyResponse :=
  match o with
  | .failure _ =>
    { status := 500, body := .json (.obj [("error", .str "Internal server error")]), contentType := none }
  | .success st data =>
    if !statusOk st then
      { status := st
        body := .json (.obj [("error", .str "Failed to fetch market data")])
        contentType := none }
    else
      { status := 200, body := .json data, contentType := none }

/-- Market-quotes `GET` route: `symbols` defaults to the hard-coded list
when the query parameter is absent or empty, and a backend call is always
issued. -/
def marketQuotesGET (apiHost : Option String) (symbols : Option String) :
    RouteAction Json :=
  .callBackend "GET"
    ("http://" ++ jsOrElse apiHost "localhost" ++ ":8001/api/market/quotes?symbols="
      ++ jsOrElse symbols "NVDA,MSFT,GOOGL,TSLA,AAPL")
    none marketQuotesOnFetch

/-- Continuation of `POST` in `theme-search-proxy/route.ts`: the backend
body is parsed before the status check, and both body and status are
relayed unconditionally; the catch branch answers 500 with a
`success:false` envelope carrying `String(error)`. -/
def themeSearchOnFetch (o : FetchOutcome Json) : ProxyResponse :=
  match o with
  | .failure errText =>
    { status := 500
      body := .json (.obj
        [("success", .bool false),
         ("error", .str "Failed to connect to backend API"),
         ("detail", .str errText)])
      contentType := none }
  | .success st data =>
    { status := st, body := .json data, contentType := none }

/-- Theme-search `POST` route: forwards the request's JSON body. -/
def themeSearchPOST (apiHost apiPort : Option String) (reqBody : Json) :
    RouteAction Json :=
  .callBackend "POST"
    ("http://" ++ jsOrElse apiHost "localhost" ++ ":" ++ jsOrElse apiPort "8000"
      ++ "/api/research/search/theme")
    (some reqBody.serialize) themeSearchOnFetch

/-- Continuation of the create-article `POST`: on a non-2xx status the
error field is `error.detail || 'Failed to create article'`. -/
def wechatCreateOnFetch (o : FetchOutcome Json) : ProxyResponse :=
  match o with
  | .failure _ =>
    { status := 500, body := .json (.obj [("error", .str "Internal server error")]), contentType := none }
  | .success st data =>
    if !statusOk st then
      let msg :=
        match data.get "detail" with
        | some d => if jsTruthy d then d else .str "Failed to create article"
        | none => Json.str "Failed to create article"
      { status := st, body := .json (.obj [("error", msg)]), contentType := none }
    else
      { status := 200, body := .json data, contentType := none }

/-- Create-article `POST` route. -/
def wechatCreatePOST (apiHost : Option String) (reqBody : Json) : RouteAction Json :=
  .callBackend "POST"
    ("http://" ++ jsOrElse apiHost "localhost" ++ ":8001/api/research/wechat/create")
    (some reqBody.serialize) wechatCreateOnFetch

/-- The `else if (traceId)` step of the generate proxy: append
" (Trace ID: ...)" to the message when the trace id is truthy (JavaScript
`+=` coerces both operands to strings). -/
def appendTraceIfAny (msg : Json) (traceId : Option Json) : Except Unit Json :=
  match traceId with
  | some t =>
    if jsTruthy t then
      .ok (.str (jsToString msg ++ " (Trace ID: " ++ jsToString t ++ ")"))
    else .ok msg
  | none => .ok msg

/-- `Array.prototype.includes('ModuleNotFoundError')` on a JSON array:
strict equality, so only string elements can match. -/
def jsonArrHasMarker : List Json → Bool
  | [] => false
  | Json.str s :: rest => s == "ModuleNotFoundError" || jsonArrHasMarker rest
  | _ :: rest => jsonArrHasMarker rest

/-- Error-message extraction of the generate proxy, lines 55–74 of its
handler: start from 'Failed to generate paper'; a truthy structured
`detail` contributes `detail.error || base`, then either the
missing-dependency rewrite (when a truthy `detail.stderr` includes
'ModuleNotFoundError') or the trace-id suffix; a truthy non-structured
`detail` is used verbatim.  `.error ()` marks the `TypeError` thrown when
a truthy non-string `stderr` lacks `.includes`, or when an array `stderr`
passes `.includes` but lacks `.match`; the handler's `catch` receives it. -/
def computeGenerateMessage (error : Json) : Except Unit Json :=
  let base := Json.str "Failed to generate paper"
  match error.get "detail" with
  | none => .ok base
  | some detail =>
    if jsTruthy detail then
      if jsTypeIsObject detail then
        let msg :=
          match detail.get "error" with
          | some e => if jsTruthy e then e else base
          | none => base
        match detail.get "stderr" with
        | some v =>
          if jsTruthy v then
            match v with
            | .str s =>
              if strIncludes s "ModuleNotFoundError" then
                .ok (.str ("Missing Python dependency: " ++ undefinedOr (matchNoModule s)
                  ++ ". Please install it in research-tracker."))
              else appendTraceIfAny msg (detail.get "trace_id")
            | .arr elems =>
              if jsonArrHasMarker elems then .error ()
              else appendTraceIfAny msg (detail.get "trace_id")
            | _ => .error ()
          else appendTraceIfAny msg (detail.get "trace_id")
        | none => appendTraceIfAny msg (detail.get "trace_id")
      else .ok detail
    else .ok base

/-- Fixed catch-branch response of the generate proxy. -/
def generateConnectFailResponse : ProxyResponse :=
  { status := 500
    body := .json (.obj
      [("error", .str "Failed to connect to API server. Please ensure the backend is running.")])
    contentType := none }

/-- Continuation of the generate `POST` after its fetch: non-2xx statuses
get the extracted message plus the relayed `detail` (omitted from the
serialized object when undefined) and the backend status, echoed with the
backend status code; 2xx bodies are relayed with status 200; any thrown
error lands in the catch branch. -/
def wechatGenerateOnFetch (o : FetchOutcome Json) : ProxyResponse :=
  match o with
  | .failure _ => generateConnectFailResponse
  | .success st error =>
    if !statusOk st then
      match computeGenerateMessage error with
      | .error _ => generateConnectFailResponse
      | .ok msg =>
        { status := st
          body := .json (.obj
            (("error", msg) ::
              (match error.get "detail" with
               | some d => [("detail", d), ("status", Json.num st)]
               | none => [("status", Json.num st)])))
          contentType := none }
    else
      { status := 200, body := .json error, contentType := none }

/-- Generate `POST` route: always one backend call (host from `API_HOST`
defaulting to localhost, port from `API_PORT` defaulting to 8000). -/
def wechatGeneratePOST (apiHost apiPort : Option String) : RouteAction Json :=
  .callBackend "POST"
    ("http://" ++ jsOrElse apiHost "localhost" ++ ":" ++ jsOrElse apiPort "8000"
      ++ "/api/research/wechat/generate")
    none wechatGenerateOnFetch

/-- The `error` field of a response's JSON body, if any. -/
def errorField (r : ProxyResponse) : Option Json :=
  match r.body with
  | .json j => j.get "error"
  | .text _ => none

/-- Does the response carry a JSON body with an `error` field? -/
def hasErrorField (r : ProxyResponse) : Bool :=
  (errorField r).isSome

/-- The serialized bytes of a response body: `JSON.stringify` for JSON
payloads, the raw text otherwise. -/
def responseBytes (r : ProxyResponse) : String :=
  match r.body with
  | .json j => j.serialize
  | .text s => s

/-- Shared shape of the generate proxy's missing-dependency rewrite: on a
non-2xx backend status with a structured `detail` whose `stderr` string
includes 'ModuleNotFoundError', the `error` field is the template with the
regex capture (or "undefined" when the regex fails) interpolated. -/
theorem generate_stderr_rewrite (st : Nat) (error : Json) (fs : List (String × Json)) (s : String)
    (hst : statusOk st = false)
    (hdet : error.get "detail" = some (.obj fs))
    (hstderr : Json.get (.obj fs) "stderr" = some (.str s))
    (hmarker : strIncludes s "ModuleNotFoundError" = true) :
    errorField (wechatGenerateOnFetch (.success st error))
      = some (.str ("Missing Python dependency: " ++ undefinedOr (matchNoModule s)
          ++ ". Please install it in research-tracker.")) := by
  have hs : (s != "") = true := by
    rw [bne_iff_ne]
    intro h
    subst h
    exact absurd hmarker (by decide)
  simp only [wechatGenerateOnFetch, computeGenerateMessage, errorField, jsTruthy,
    jsTypeIsObject, hst, hdet, hstderr, hmarker, hs, Bool.not_false, if_true]
  rfl

/-- C1 counterexample: on the spec's own end-to-end scenario (backend 500
with stderr "ModuleNotFoundError: No module named 'apscheduler'") the
generate proxy's `error` field is "Missing Python dependency:
apscheduler. Please install it in research-tracker.", not the claimed
"Missing dependency: apscheduler. Please install it in research-tracker." -/
theorem generate_missing_dep_counterexample :
    errorField (wechatGenerateOnFetch (.success 500 (.obj
      [("detail", .obj
        [("error", .str "Workflow failed"),
         ("trace_id", .str "a3b5c7d9"),
         ("stderr", .str "ModuleNotFoundError: No module named 'apscheduler'")])])))
      = some (.str "Missing Python dependency: apscheduler. Please install it in research-tracker.")
    ∧ "Missing Python dependency: apscheduler. Please install it in research-tracker."
      ≠ "Missing dependency: apscheduler. Please install it in research-tracker." :=
  ⟨rfl, by decide⟩

/-- C1 (amended): for every backend error response (non-2xx) to the
generate proxy whose structured `detail` has a `stderr` string containing
'ModuleNotFoundError' and matching "No module named '(\w+)'" with capture
X, the returned `error` field equals
"Missing Python dependency: X. Please install it in research-tracker." -/
theorem generate_missing_dep_message (st : Nat) (error : Json)
    (fs : List (String × Json)) (s x : String)
    (hst : statusOk st = false)
    (hdet : error.get "detail" = some (.obj fs))
    (hstderr : Json.get (.obj fs) "stderr" = some (.str s))
    (hmarker : strIncludes s "ModuleNotFoundError" = true)
    (hmatch : matchNoModule s = some x) :
    errorField (wechatGenerateOnFetch (.success st error))
      = some (.str ("Missing Python dependency: " ++ x
          ++ ". Please install it in research-tracker.")) := by
  rw [generate_stderr_rewrite st error fs s hst hdet hstderr hmarker, hmatch]
  rfl

/-- C1 witness: the amended theorem applied to a concrete 500 body whose
stderr names the module numpy. -/
theorem generate_missing_dep_message_witness :
    errorField (wechatGenerateOnFetch (.success 500 (.obj
      [("detail", .obj
        [("error", .str "Workflow failed"),
         ("stderr", .str "ModuleNotFoundError: No module named 'numpy'")])])))
      = some (.str ("Missing Python dependency: " ++ "numpy"
          ++ ". Please install it in research-tracker.")) :=
  generate_missing_dep_message 500 _ _ _ "numpy" (by decide) rfl rfl (by decide) (by decide)

/-- C10: when the structured `detail.stderr` of a non-2xx generate
response contains 'ModuleNotFoundError' but the "No module named '(\w+)'"
pattern does not match, the module name is interpolated as the text
"undefined": the `error` field is "Missing Python dependency: undefined.
Please install it in research-tracker.", with no fallback to
`detail.error`. -/
theorem generate_undefined_module_message (st : Nat) (error : Json)
    (fs : List (String × Json)) (s : String)
    (hst : statusOk st = false)
    (hdet : error.get "detail" = some (.obj fs))
    (hstderr : Json.get (.obj fs) "stderr" = some (.str s))
    (hmarker : strIncludes s "ModuleNotFoundError" = true)
    (hmatch : matchNoModule s = none) :
    errorField (wechatGenerateOnFetch (.success st error))
      = some (.str "Missing Python dependency: undefined. Please install it in research-tracker.") := by
  rw [generate_stderr_rewrite st error fs s hst hdet hstderr hmarker, hmatch]
  rfl

/-- C10 witness: a quoted module name with a dot defeats the word-only
pattern, and the message reports "undefined". -/
theorem generate_undefined_module_message_witness :
    errorField (wechatGenerateOnFetch (.success 500 (.obj
      [("detail", .obj
        [("error", .str "Workflow failed"),
         ("stderr", .str "ModuleNotFoundError: No module named 'foo.bar'")])])))
      = some (.str "Missing Python dependency: undefined. Please install it in research-tracker.") :=
  generate_undefined_module_message 500 _ _ _ (by decide) rfl rfl (by decide) (by decide)

/-- C6 counterexample: when `detail` is the plain (empty) string, the
generate proxy's `error` field is the fallback "Failed to generate
paper", not that string verbatim — the empty string is falsy, so the
`if (error.detail)` guard skips it. -/
theorem generate_plain_detail_counterexample :
    errorField (wechatGenerateOnFetch (.success 500 (.obj [("detail", .str "")])))
      = some (.str "Failed to generate paper")
    ∧ "Failed to generate paper" ≠ "" :=
  ⟨rfl, by decide⟩

/-- C6 (amended): for a non-2xx generate response with structured
`detail` whose `error` is a nonempty string, whose `trace_id` is a
nonempty string, and whose `stderr` is absent or a string without the
'ModuleNotFoundError' marker, the returned `error` is `detail.error`
with " (Trace ID: <id>)" appended; and a *nonempty* plain-string
`detail` is returned verbatim (an empty one falls back to "Failed to
generate paper"). -/
theorem generate_trace_and_plain_detail (st : Nat) (hst : statusOk st = false) :
    (∀ (error : Json) (fs : List (String × Json)) (e t s : String),
      error.get "detail" = some (.obj fs) →
      Json.get (.obj fs) "error" = some (.str e) → e ≠ "" →
      Json.get (.obj fs) "trace_id" = some (.str t) → t ≠ "" →
      (Json.get (.obj fs) "stderr" = none ∨
        (Json.get (.obj fs) "stderr" = some (.str s) ∧
          strIncludes s "ModuleNotFoundError" = false)) →
      errorField (wechatGenerateOnFetch (.success st error))
        = some (.str (e ++ " (Trace ID: " ++ t ++ ")")))
    ∧
    (∀ (error : Json) (s : String),
      error.get "detail" = some (.str s) → s ≠ "" →
      errorField (wechatGenerateOnFetch (.success st error)) = some (.str s)) := by
  constructor
  · intro error fs e t s hdet herr he htr ht hstderr
    have he' : (e != "") = true := by rw [bne_iff_ne]; exact he
    have ht' : (t != "") = true := by rw [bne_iff_ne]; exact ht
    rcases hstderr with hE | ⟨hS, hI⟩
    · simp only [wechatGenerateOnFetch, computeGenerateMessage, errorField, jsTruthy,
        jsTypeIsObject, appendTraceIfAny, hst, hdet, herr, htr, hE, he', ht',
        Bool.not_false, if_true]
      rfl
    · by_cases hs : s = ""
      · subst hs
        simp only [wechatGenerateOnFetch, computeGenerateMessage, errorField, jsTruthy,
          jsTypeIsObject, appendTraceIfAny, hst, hdet, herr, htr, hS, he', ht',
          Bool.not_false, if_true]
        rfl
      · have hs' : (s != "") = true := by rw [bne_iff_ne]; exact hs
        simp only [wechatGenerateOnFetch, computeGenerateMessage, errorField, jsTruthy,
          jsTypeIsObject, appendTraceIfAny, hst, hdet, herr, htr, hS, hI, he', ht', hs',
          Bool.not_false, if_true]
        rfl
  · intro error s hdet hs
    have hs' : (s != "") = true := by rw [bne_iff_ne]; exact hs
    simp only [wechatGenerateOnFetch, computeGenerateMessage, errorField, jsTruthy,
      jsTypeIsObject, hst, hdet, hs', Bool.not_false, if_true]
    rfl

/-- C6 witness: the amended theorem at a concrete trace-carrying error
body and at a concrete nonempty plain-string detail. -/
theorem generate_trace_and_plain_detail_witness :
    errorField (wechatGenerateOnFetch (.success 500 (.obj
      [("detail", .obj
        [("error", .str "Workflow failed"), ("trace_id", .str "a3b5c7d9")])])))
      = some (.str ("Workflow failed" ++ " (Trace ID: " ++ "a3b5c7d9" ++ ")"))
    ∧ errorField (wechatGenerateOnFetch (.success 500 (.obj [("detail", .str "boom")])))
      = some (.str "boom") :=
  ⟨(generate_trace_and_plain_detail 500 (by decide)).1 _ _ "Workflow failed" "a3b5c7d9" ""
      rfl rfl (by decide) rfl (by decide) (Or.inl rfl),
   (generate_trace_and_plain_detail 500 (by decide)).2 _ "boom" rfl (by decide)⟩

/-- C2 counterexample: the get-article proxy's catch branch answers a
transport failure with the plain-text body "Internal server error",
status 500 — not a JSON body with an `error` field, and not the fixed
message "Failed to connect to API server...". -/
theorem article_transport_failure_counterexample :
    (wechatArticleOnFetch (.failure "TypeError: fetch failed")).status = 500
    ∧ hasErrorField (wechatArticleOnFetch (.failure "TypeError: fetch failed")) = false
    ∧ (wechatArticleOnFetch (.failure "TypeError: fetch failed")).body
        = .text "Internal server error" :=
  ⟨rfl, rfl, rfl⟩

/-- C2 (amended): on a transport failure every proxy handler returns HTTP
500 (the handlers are total functions, so no exception propagates), and
every handler except the get-article HTML proxy returns a JSON body with
an `error` field; the message is handler-specific ("Internal server
error" for the list/delete/quotes/create proxies, "Failed to connect to
API server. Please ensure the backend is running." for generate, "Failed
to connect to backend API" for theme search), while the get-article proxy
answers plain text "Internal server error". -/
theorem transport_failure_returns_500 (m : String) :
    (wechatArticleOnFetch (.failure m)).status = 500
    ∧ (wechatArticleOnFetch (.failure m)).body = .text "Internal server error"
    ∧ hasErrorField (wechatArticleOnFetch (.failure m)) = false
    ∧ (wechatListOnFetch (.failure m)).status = 500
    ∧ errorField (wechatListOnFetch (.failure m)) = some (.str "Internal server error")
    ∧ (wechatDeleteOnFetch (.failure m)).status = 500
    ∧ errorField (wechatDeleteOnFetch (.failure m)) = some (.str "Internal server error")
    ∧ (marketQuotesOnFetch (.failure m)).status = 500
    ∧ errorField (marketQuotesOnFetch (.failure m)) = some (.str "Internal server error")
    ∧ (themeSearchOnFetch (.failure m)).status = 500
    ∧ errorField (themeSearchOnFetch (.failure m))
        = some (.str "Failed to connect to backend API")
    ∧ (wechatCreateOnFetch (.failure m)).status = 500
    ∧ errorField (wechatCreateOnFetch (.failure m)) = some (.str "Internal server error")
    ∧ (wechatGenerateOnFetch (.failure m)).status = 500
    ∧ errorField (wechatGenerateOnFetch (.failure m))
        = some (.str "Failed to connect to API server. Please ensure the backend is running.") :=
  ⟨rfl, rfl, rfl, rfl, rfl, rfl, rfl, rfl, rfl, rfl, rfl, rfl, rfl, rfl, rfl⟩

/-- C3: with the `filename` query parameter absent, both the get-article
and the delete-article route answer immediately (`RouteAction.respond`,
so no backend request is issued) with status 400 and the JSON body
`{error: "Filename parameter is required"}`. -/
theorem missing_filename_short_circuit (apiHost : Option String) :
    wechatArticleGET apiHost none = .respond missingFilenameResponse
    ∧ wechatDeleteDELETE apiHost none = .respond missingFilenameResponse
    ∧ missingFilenameResponse.status = 400
    ∧ errorField missingFilenameResponse = some (.str "Filename parameter is required") :=
  ⟨rfl, rfl, rfl, rfl⟩

/-- C5: for every truthy filename the get-article route issues one
backend GET, and for every 2xx backend status its continuation relays the
backend's HTML verbatim as the browser response body, with Content-Type
text/html and status 200. -/
theorem article_get_relays_html (apiHost : Option String) (fn : String)
    (st : Nat) (html : String) (hfn : fn ≠ "") (hst : statusOk st = true) :
    wechatArticleGET apiHost (some fn)
      = .callBackend "GET"
          ("http://" ++ jsOrElse apiHost "localhost" ++ ":8001/api/research/wechat/" ++ fn)
          none wechatArticleOnFetch
    ∧ wechatArticleOnFetch (.success st html)
      = { status := 200, body := .text html, contentType := some "text/html" } := by
  constructor
  · simp only [wechatArticleGET, if_neg hfn]
  · simp only [wechatArticleOnFetch, hst, Bool.not_true]
    rfl

/-- C5 witness: the relay at a concrete filename, status 200 and HTML
body. -/
theorem article_get_relays_html_witness :
    wechatArticleOnFetch (.success 200 "<h1>AI Research</h1>")
      = { status := 200, body := .text "<h1>AI Research</h1>",
          contentType := some "text/html" } :=
  (article_get_relays_html none "wechat_20251212.html" 200 "<h1>AI Research</h1>"
    (by decide) (by decide)).2

/-- C7: the list-articles continuation is a pure function of the backend
outcome — two invocations against an unchanged backend yield equal
responses, and in particular byte-identical serialized bodies. -/
theorem list_articles_deterministic (o₁ o₂ : FetchOutcome Json) (h : o₁ = o₂) :
    wechatListOnFetch o₁ = wechatListOnFetch o₂
    ∧ responseBytes (wechatListOnFetch o₁) = responseBytes (wechatListOnFetch o₂) := by
  subst h
  exact ⟨rfl, rfl⟩

/-- C7 witness: two calls on the spec's sample articles payload. -/
theorem list_articles_deterministic_witness :
    wechatListOnFetch (.success 200 (.obj [("articles", .arr
        [.obj [("filename", .str "wechat_20251212.html"),
               ("date", .str "20251212"),
               ("title", .str "AI Research - 2025-12-12")]])]))
      = wechatListOnFetch (.success 200 (.obj [("articles", .arr
        [.obj [("filename", .str "wechat_20251212.html"),
               ("date", .str "20251212"),
               ("title", .str "AI Research - 2025-12-12")]])]))
    ∧ responseBytes (wechatListOnFetch (.success 200 (.obj [("articles", .arr
        [.obj [("filename", .str "wechat_20251212.html"),
               ("date", .str "20251212"),
               ("title", .str "AI Research - 2025-12-12")]])])))
      = responseBytes (wechatListOnFetch (.success 200 (.obj [("articles", .arr
        [.obj [("filename", .str "wechat_20251212.html"),
               ("date", .str "20251212"),
               ("title", .str "AI Research - 2025-12-12")]])]))) :=
  list_articles_deterministic _ _ rfl

/-- C8: the theme-search proxy relays every backend response — 2xx or not
— as-is: the parsed JSON body verbatim together with the backend's status
code, with no error-message extraction or rewriting. -/
theorem theme_search_relays_verbatim (st : Nat) (data : Json) :
    themeSearchOnFetch (.success st data)
      = { status := st, body := .json data, contentType := none } :=
  rfl

/-- C9: with the `symbols` query parameter absent the market-quotes route
does not answer with a client error: it substitutes the default list
NVDA,MSFT,GOOGL,TSLA,AAPL and still issues the backend request with those
symbols in the URL. -/
theorem market_quotes_default_symbols (apiHost : Option String) :
    marketQuotesGET apiHost none
      = .callBackend "GET"
          ("http://" ++ jsOrElse apiHost "localhost"
            ++ ":8001/api/market/quotes?symbols=" ++ "NVDA,MSFT,GOOGL,TSLA,AAPL")
          none marketQuotesOnFetch
    ∧ marketQuotesGET none none
      = .callBackend "GET"
          "http://localhost:8001/api/market/quotes?symbols=NVDA,MSFT,GOOGL,TSLA,AAPL"
          none marketQuotesOnFetch :=
  ⟨rfl, rfl⟩
